import Mathlib

/-!
Verification of the GPIO safeguard controller
(`scripts/monitoring/gpio_safeguard.py`).

The controller state and the tick body are embedded as pure Lean
functions.  External effects (the `raspi-gpio` reads and writes and the
wall clock) are passed in explicitly:

* a read environment `Nat → Option Nat` gives, for each pin, the result
  of `read_gpio` at that point (`none` models a failed or unparsable
  read);
* a write environment `Nat → Attempt` gives, for each retry index of one
  `set_gpio` call, whether the `raspi-gpio set` subprocess succeeded and
  what the verification read-back returned afterwards.

The Python dictionaries `gpio_states` and `gpio_timers` are modelled as
total functions `Nat → Option _`; an absent key and a stored `None` are
collapsed to `none` (the code distinguishes them only on a `KeyError`
path — direct indexing of `gpio_timers` for a pin skipped during live
initialization — which none of the verified properties depend on).
Timestamps and durations are rationals, in seconds.
-/

namespace Safeguard

/-- MONITORED_PINS from the source. -/
def MONITORED_PINS : List Nat := [2, 3, 4, 10]

/-- SAFETY_RULES from the source: pin to maximum seconds allowed at
level 0.  The dictionary is only ever looked up at monitored pins; the
final 0 is an unused default for the totalization. -/
def SAFETY_RULES (pin : Nat) : ℚ :=
  if pin = 2 then 25
  else if pin = 3 then 20
  else if pin = 4 then 2
  else if pin = 10 then 4
  else 0

/-- One `set_gpio` retry iteration as seen from outside: whether the
`raspi-gpio set` subprocess call returned success (`write = true` means
no `CalledProcessError`), and the value the verification `read_gpio`
returned afterwards (consulted only when the write call succeeded). -/
structure Attempt where
  write : Bool
  readback : Option Nat

/-- External inputs consumed by one `check_safety_violations` tick: the
current time, the per-pin `read_gpio` results, and per pin the outcomes
of the retry iterations of a potential `set_gpio` call. -/
structure TickEnv where
  now : ℚ
  reads : Nat → Option Nat
  setEnv : Nat → Nat → Attempt

/-- Mutable state of a `GPIOSafeguard` object (the immutable `dry_run`
flag is threaded as a parameter instead). -/
structure SafeguardState where
  gpio_states : Nat → Option Nat
  gpio_timers : Nat → Option ℚ
  violations_count : Nat
  corrections_made : Nat

/-- Pointwise update of a dictionary modelled as a total function. -/
def upd {α : Type} (f : Nat → α) (k : Nat) (v : α) : Nat → α :=
  fun q => if q = k then v else f q

/-- The retry loop of `set_gpio` (source lines 112-168): `attempt` is
the current 0-based index, the second `Nat` the number of iterations
left.  Each iteration issues the write, then verifies by read-back;
Python's `attempt < max_retries - 1` test is `0 < r` here, and a
`CalledProcessError` from the write skips the read-back entirely. -/
def setGpioGo (value : Nat) (env : Nat → Attempt) : Nat → Nat → Bool
  | _, 0 => false
  | attempt, r + 1 =>
    if (env attempt).write then
      match (env attempt).readback with
      | some actual =>
        if actual = value then true
        else if 0 < r then setGpioGo value env (attempt + 1) r else false
      | none => if 0 < r then setGpioGo value env (attempt + 1) r else false
    else
      if 0 < r then setGpioGo value env (attempt + 1) r else false

/-- `GPIOSafeguard.set_gpio`: in dry-run mode, report success without
touching the write environment; otherwise run the bounded retry loop
(the source calls it with the default `max_retries = 3`). -/
def set_gpio (dry_run : Bool) (value : Nat) (env : Nat → Attempt)
    (max_retries : Nat) : Bool :=
  if dry_run then true else setGpioGo value env 0 max_retries

/-- Body of the `for pin in MONITORED_PINS` loop of
`check_safety_violations` (source lines 199-254): returns the updated
state and whether this pin raised a violation this tick. -/
def checkPin (dry_run : Bool) (env : TickEnv) (s : SafeguardState)
    (pin : Nat) : SafeguardState × Bool :=
  match env.reads pin with
  | none => (s, false)
  | some current_state =>
    let s1 :=
      if s.gpio_states pin ≠ some current_state then
        let sA := { s with gpio_states := upd s.gpio_states pin (some current_state) }
        if current_state = 0 then
          { sA with gpio_timers := upd sA.gpio_timers pin (some env.now) }
        else if current_state = 1 then
          { sA with gpio_timers := upd sA.gpio_timers pin none }
        else sA
      else s
    if current_state = 0 then
      match s1.gpio_timers pin with
      | none => (s1, false)
      | some started =>
        if env.now - started > SAFETY_RULES pin then
          let s2 := { s1 with violations_count := s1.violations_count + 1 }
          if set_gpio dry_run 1 (env.setEnv pin) 3 then
            ({ s2 with
                corrections_made := s2.corrections_made + 1,
                gpio_states := upd s2.gpio_states pin (some 1),
                gpio_timers := upd s2.gpio_timers pin none }, true)
          else (s2, true)
        else (s1, false)
    else (s1, false)

/-- `GPIOSafeguard.check_safety_violations`: fold the per-pin body over
the monitored pins, or-ing the `violations_detected` flag. -/
def check_safety_violations (dry_run : Bool) (env : TickEnv)
    (s : SafeguardState) : SafeguardState × Bool :=
  MONITORED_PINS.foldl
    (fun acc pin =>
      let r := checkPin dry_run env acc.1 pin
      (r.1, acc.2 || r.2))
    (s, false)

/-- State component of one `check_safety_violations` tick. -/
def tickState (dry_run : Bool) (env : TickEnv) (s : SafeguardState) :
    SafeguardState :=
  (check_safety_violations dry_run env s).1

/-- Body of the `initialize_gpios` loop (source lines 174-192).  A pin
whose read fails is skipped by `continue` before the state assignments;
for a readable pin the corrective write's result is only logged, and the
tracked state is set to the safe values unconditionally. -/
def initializePin (dry_run : Bool) (reads : Nat → Option Nat)
    (setEnv : Nat → Nat → Attempt) (s : SafeguardState) (pin : Nat) :
    SafeguardState :=
  match reads pin with
  | none => s
  | some current_state =>
    let _corrected :=
      if current_state ≠ 1 then set_gpio dry_run 1 (setEnv pin) 3 else true
    { s with gpio_states := upd s.gpio_states pin (some 1),
             gpio_timers := upd s.gpio_timers pin none }

/-- `GPIOSafeguard.initialize_gpios`. -/
def initialize_gpios (dry_run : Bool) (reads : Nat → Option Nat)
    (setEnv : Nat → Nat → Attempt) (s : SafeguardState) : SafeguardState :=
  MONITORED_PINS.foldl (initializePin dry_run reads setEnv) s

/-- The dry-run branch of `run_safeguard` (source lines 283-288): seed
`gpio_states` with the raw read results (possibly `none`) and clear all
timers. -/
def dryRunSeed (reads : Nat → Option Nat) (s : SafeguardState) :
    SafeguardState :=
  MONITORED_PINS.foldl
    (fun s pin =>
      { s with gpio_states := upd s.gpio_states pin (reads pin),
               gpio_timers := upd s.gpio_timers pin none })
    s

/-- State built by `GPIOSafeguard.__init__`: empty dictionaries, zero
counters. -/
def initialState : SafeguardState :=
  { gpio_states := fun _ => none, gpio_timers := fun _ => none,
    violations_count := 0, corrections_made := 0 }

/-- Result of the startup gate in `main` (source lines 338-351). -/
inductive MainOutcome where
  | exit (code : Nat)
  | enterRunLoop
deriving DecidableEq

/-- The pre-loop access check in `main`: read every monitored pin once,
accumulating the `gpio_accessible` flag; if any read failed,
`sys.exit(1)`; otherwise `run_safeguard` is entered. -/
def main_startup (reads : Nat → Option Nat) : MainOutcome :=
  let gpio_accessible :=
    MONITORED_PINS.foldl
      (fun acc pin => if reads pin = none then false else acc) true
  if gpio_accessible then MainOutcome.enterRunLoop else MainOutcome.exit 1

/-- `read_gpio` can only produce `none`, `some 0` or `some 1` (source
lines 93-101); read environments fed to the controller satisfy this. -/
def ValidReads (reads : Nat → Option Nat) : Prop :=
  ∀ pin v, reads pin = some v → v = 0 ∨ v = 1

/-- States of the live (non-dry-run) controller: `initialize_gpios`
from the fresh state, then any number of ticks with valid reads. -/
inductive ReachableLive : SafeguardState → Prop where
  | init (reads : Nat → Option Nat) (setEnv : Nat → Nat → Attempt) :
      ReachableLive (initialize_gpios false reads setEnv initialState)
  | step (s : SafeguardState) (env : TickEnv) (hr : ValidReads env.reads)
      (hs : ReachableLive s) : ReachableLive (tickState false env s)

/-- States of the dry-run controller: the initial read-seeding pass,
then any number of dry-run ticks with valid reads. -/
inductive ReachableDry : SafeguardState → Prop where
  | init (reads : Nat → Option Nat) :
      ReachableDry (dryRunSeed reads initialState)
  | step (s : SafeguardState) (env : TickEnv) (hr : ValidReads env.reads)
      (hs : ReachableDry s) : ReachableDry (tickState true env s)

/-- Fold of the tick's per-pin state updates over a pin list, used to
reason about `check_safety_violations` one pin at a time. -/
def tickFold (dry_run : Bool) (env : TickEnv) (l : List Nat)
    (s : SafeguardState) : SafeguardState :=
  l.foldl (fun s pin => (checkPin dry_run env s pin).1) s

theorem foldPair_fst (dry_run : Bool) (env : TickEnv) (l : List Nat) :
    ∀ (s : SafeguardState) (b : Bool),
      (l.foldl
        (fun acc pin =>
          let r := checkPin dry_run env acc.1 pin
          (r.1, acc.2 || r.2)) (s, b)).1 = tickFold dry_run env l s := by
  induction l with
  | nil => intro s b; rfl
  | cons p l ih => intro s b; simpa [tickFold, List.foldl] using ih _ _

theorem tickState_eq_fold (dry_run : Bool) (env : TickEnv)
    (s : SafeguardState) :
    tickState dry_run env s = tickFold dry_run env MONITORED_PINS s := by
  simpa [tickState, check_safety_violations] using
    foldPair_fst dry_run env MONITORED_PINS s false

theorem checkPin_skip (dry_run : Bool) (env : TickEnv) (s : SafeguardState)
    (pin : Nat) (h : env.reads pin = none) :
    checkPin dry_run env s pin = (s, false) := by
  simp [checkPin, h]

theorem checkPin_frame (dry_run : Bool) (env : TickEnv) (s : SafeguardState)
    (pin q : Nat) (hq : q ≠ pin) :
    (checkPin dry_run env s pin).1.gpio_states q = s.gpio_states q ∧
    (checkPin dry_run env s pin).1.gpio_timers q = s.gpio_timers q := by
  cases h : env.reads pin with
  | none => simp [checkPin, h]
  | some c =>
    simp only [checkPin, h]
    split_ifs <;> (try split) <;> (try split_ifs) <;> simp_all [upd, hq]

theorem tickFold_frame (dry_run : Bool) (env : TickEnv) (q : Nat)
    (hq : env.reads q = none) (l : List Nat) :
    ∀ s : SafeguardState,
      (tickFold dry_run env l s).gpio_states q = s.gpio_states q ∧
      (tickFold dry_run env l s).gpio_timers q = s.gpio_timers q := by
  induction l with
  | nil => intro s; exact ⟨rfl, rfl⟩
  | cons p l ih =>
    intro s
    by_cases hpq : q = p
    · subst hpq
      simpa [tickFold, List.foldl, checkPin_skip dry_run env s q hq] using ih s
    · have hfr := checkPin_frame dry_run env s p q hpq
      have := ih (checkPin dry_run env s p).1
      simp only [tickFold, List.foldl] at this ⊢
      exact ⟨this.1.trans hfr.1, this.2.trans hfr.2⟩

/-- The violation branch of the loop body (source lines 228-254), in
the case where the fresh read returns 0, the tracked level is already 0
(so the state-change block does nothing), the timer is running and the
allowed duration is exceeded. -/
theorem checkPin_violation_eq (dry_run : Bool) (env : TickEnv)
    (s : SafeguardState) (pin : Nat) (t : ℚ)
    (h0 : env.reads pin = some 0) (hprev : s.gpio_states pin = some 0)
    (ht : s.gpio_timers pin = some t)
    (hel : env.now - t > SAFETY_RULES pin) :
    checkPin dry_run env s pin =
      (if set_gpio dry_run 1 (env.setEnv pin) 3 then
        { s with
            violations_count := s.violations_count + 1,
            corrections_made := s.corrections_made + 1,
            gpio_states := upd s.gpio_states pin (some 1),
            gpio_timers := upd s.gpio_timers pin none }
      else { s with violations_count := s.violations_count + 1 }, true) := by
  simp only [checkPin, h0, hprev, ht, ne_eq, not_true_eq_false, if_false,
    if_true, ite_not]
  rw [if_pos hel]
  split_ifs <;> rfl

/-- If the fresh read confirms the tracked level 0 but no timer is
running, the loop body changes nothing (source lines 205-228: no state
change, and the violation test requires a running timer). -/
theorem checkPin_noop (dry_run : Bool) (env : TickEnv)
    (s : SafeguardState) (pin : Nat)
    (h0 : env.reads pin = some 0) (hprev : s.gpio_states pin = some 0)
    (ht : s.gpio_timers pin = none) :
    checkPin dry_run env s pin = (s, false) := by
  simp [checkPin, h0, hprev, ht]

/-- When every pin other than `pin` reads as failed, the whole tick
reduces to the loop body at `pin`. -/
theorem tick_single (dry_run : Bool) (env : TickEnv) (pin : Nat)
    (hmem : pin ∈ MONITORED_PINS)
    (hoth : ∀ q, q ≠ pin → env.reads q = none) (s : SafeguardState) :
    tickState dry_run env s = (checkPin dry_run env s pin).1 := by
  have hsk : ∀ q, q ≠ pin → ∀ u : SafeguardState,
      (checkPin dry_run env u q).1 = u := by
    intro q hq u
    rw [checkPin_skip dry_run env u q (hoth q hq)]
  rw [tickState_eq_fold]
  fin_cases hmem
  · simp [tickFold, List.foldl, MONITORED_PINS,
      hsk 3 (by decide), hsk 4 (by decide), hsk 10 (by decide)]
  · simp [tickFold, List.foldl, MONITORED_PINS,
      hsk 2 (by decide), hsk 4 (by decide), hsk 10 (by decide)]
  · simp [tickFold, List.foldl, MONITORED_PINS,
      hsk 2 (by decide), hsk 3 (by decide), hsk 10 (by decide)]
  · simp [tickFold, List.foldl, MONITORED_PINS,
      hsk 2 (by decide), hsk 3 (by decide), hsk 4 (by decide)]

/-- The § 3 invariant of the tracked pin state: a timer is running
exactly for the pins whose tracked level is 0. -/
def TimerInv (s : SafeguardState) : Prop :=
  ∀ q, s.gpio_timers q ≠ none ↔ s.gpio_states q = some 0

theorem checkPin_inv_at (dry_run : Bool) (env : TickEnv)
    (s : SafeguardState) (pin : Nat)
    (hval : env.reads pin = none ∨ env.reads pin = some 0 ∨
      env.reads pin = some 1)
    (hpin : s.gpio_timers pin ≠ none ↔ s.gpio_states pin = some 0) :
    (checkPin dry_run env s pin).1.gpio_timers pin ≠ none ↔
      (checkPin dry_run env s pin).1.gpio_states pin = some 0 := by
  rcases hval with h | h | h <;>
    simp only [checkPin, h] <;>
    (try split_ifs) <;> (try split) <;> (try split_ifs) <;> simp_all [upd]

theorem checkPin_inv (dry_run : Bool) (env : TickEnv) (s : SafeguardState)
    (pin : Nat) (hval : ValidReads env.reads) (hinv : TimerInv s) :
    TimerInv (checkPin dry_run env s pin).1 := by
  intro q
  by_cases hq : q = pin
  · subst hq
    refine checkPin_inv_at dry_run env s q ?_ (hinv q)
    cases hr : env.reads q with
    | none => exact Or.inl rfl
    | some v =>
      rcases hval q v hr with rfl | rfl
      · exact Or.inr (Or.inl rfl)
      · exact Or.inr (Or.inr rfl)
  · have hfr := checkPin_frame dry_run env s pin q hq
    rw [hfr.1, hfr.2]
    exact hinv q

theorem tickFold_inv (dry_run : Bool) (env : TickEnv)
    (hval : ValidReads env.reads) (l : List Nat) :
    ∀ s : SafeguardState, TimerInv s → TimerInv (tickFold dry_run env l s) := by
  induction l with
  | nil => intro s hs; exact hs
  | cons p l ih =>
    intro s hs
    simpa [tickFold, List.foldl] using
      ih _ (checkPin_inv dry_run env s p hval hs)

theorem tickState_inv (dry_run : Bool) (env : TickEnv)
    (s : SafeguardState) (hval : ValidReads env.reads) (hs : TimerInv s) :
    TimerInv (tickState dry_run env s) := by
  rw [tickState_eq_fold]
  exact tickFold_inv dry_run env hval MONITORED_PINS s hs

theorem initializePin_frame (dry_run : Bool) (reads : Nat → Option Nat)
    (setEnv : Nat → Nat → Attempt) (s : SafeguardState) (pin q : Nat)
    (hq : q ≠ pin) :
    (initializePin dry_run reads setEnv s pin).gpio_states q =
      s.gpio_states q ∧
    (initializePin dry_run reads setEnv s pin).gpio_timers q =
      s.gpio_timers q := by
  cases h : reads pin <;> simp [initializePin, h, upd, hq]

theorem initializePin_inv (dry_run : Bool) (reads : Nat → Option Nat)
    (setEnv : Nat → Nat → Attempt) (s : SafeguardState) (pin : Nat)
    (hinv : TimerInv s) : TimerInv (initializePin dry_run reads setEnv s pin) := by
  intro q
  by_cases hq : q = pin
  · subst hq
    cases h : reads q <;> simp [initializePin, h, upd]
    exact hinv q
  · have hfr := initializePin_frame dry_run reads setEnv s pin q hq
    rw [hfr.1, hfr.2]
    exact hinv q

theorem initialize_gpios_inv (dry_run : Bool) (reads : Nat → Option Nat)
    (setEnv : Nat → Nat → Attempt) (s : SafeguardState) (hinv : TimerInv s) :
    TimerInv (initialize_gpios dry_run reads setEnv s) := by
  have : ∀ (l : List Nat) (u : SafeguardState), TimerInv u →
      TimerInv (l.foldl (initializePin dry_run reads setEnv) u) := by
    intro l
    induction l with
    | nil => intro u hu; exact hu
    | cons p l ih =>
      intro u hu
      simpa [List.foldl] using ih _ (initializePin_inv dry_run reads setEnv u p hu)
  exact this MONITORED_PINS s hinv

theorem initialState_inv : TimerInv initialState := by
  intro q; simp [initialState]

theorem reachableLive_inv (s : SafeguardState) (hs : ReachableLive s) :
    TimerInv s := by
  induction hs with
  | init reads setEnv =>
    exact initialize_gpios_inv false reads setEnv initialState initialState_inv
  | step s env hr _ ih => exact tickState_inv false env s hr ih

/-- The loop body clears a running timer only on the two paths that also
force the tracked level to 1 (observed return to 1, or a verified
correction). -/
theorem checkPin_clear (dry_run : Bool) (env : TickEnv)
    (s : SafeguardState) (pin q : Nat) (h1 : s.gpio_timers q ≠ none)
    (h2 : (checkPin dry_run env s pin).1.gpio_timers q = none) :
    (checkPin dry_run env s pin).1.gpio_states q = some 1 := by
  by_cases hq : q = pin
  · subst hq
    cases h : env.reads q with
    | none => rw [checkPin_skip dry_run env s q h] at h2 ⊢; exact absurd h2 h1
    | some c =>
      simp only [checkPin, h] at h2 ⊢
      split_ifs at h2 ⊢ <;> (try split at h2) <;> (try split_ifs at h2) <;>
        simp_all [upd]
  · have hfr := checkPin_frame dry_run env s pin q hq
    rw [hfr.2] at h2
    exact absurd h2 h1

theorem tickFold_notmem_frame (dry_run : Bool) (env : TickEnv) (q : Nat)
    (l : List Nat) (hq : q ∉ l) :
    ∀ s : SafeguardState,
      (tickFold dry_run env l s).gpio_states q = s.gpio_states q ∧
      (tickFold dry_run env l s).gpio_timers q = s.gpio_timers q := by
  induction l with
  | nil => intro s; exact ⟨rfl, rfl⟩
  | cons p l ih =>
    intro s
    have hqp : q ≠ p := fun h => hq (by simp [h])
    have hql : q ∉ l := fun h => hq (by simp [h])
    have hfr := checkPin_frame dry_run env s p q hqp
    have hrest := ih hql (checkPin dry_run env s p).1
    simp only [tickFold, List.foldl] at hrest ⊢
    exact ⟨hrest.1.trans hfr.1, hrest.2.trans hfr.2⟩

theorem tickFold_clear (dry_run : Bool) (env : TickEnv) (q : Nat)
    (l : List Nat) (hnd : l.Nodup) :
    ∀ s : SafeguardState, s.gpio_timers q ≠ none →
      (tickFold dry_run env l s).gpio_timers q = none →
      (tickFold dry_run env l s).gpio_states q = some 1 := by
  induction l with
  | nil => intro s h1 h2; exact absurd h2 h1
  | cons p l ih =>
    intro s h1 h2
    rcases List.nodup_cons.mp hnd with ⟨hp, hndl⟩
    by_cases h' : (checkPin dry_run env s p).1.gpio_timers q = none
    · have hqp : q = p := by
        by_contra hne
        exact absurd ((checkPin_frame dry_run env s p q hne).2.symm.trans h')
          (fun h => h1 h)
      subst hqp
      have hst := checkPin_clear dry_run env s q q h1 h'
      have hfr := tickFold_notmem_frame dry_run env q l hp
        (checkPin dry_run env s q).1
      simp only [tickFold, List.foldl] at h2 ⊢
      exact hfr.1.trans hst
    · have := ih hndl (checkPin dry_run env s p).1 h'
      simp only [tickFold, List.foldl] at h2 ⊢
      exact this h2

theorem tickState_clear (dry_run : Bool) (env : TickEnv)
    (s : SafeguardState) (q : Nat) (h1 : s.gpio_timers q ≠ none)
    (h2 : (tickState dry_run env s).gpio_timers q = none) :
    (tickState dry_run env s).gpio_states q = some 1 := by
  rw [tickState_eq_fold] at h2 ⊢
  exact tickFold_clear dry_run env q MONITORED_PINS (by decide) s h1 h2

theorem setGpioGo_eq_true_iff (value : Nat) (env : Nat → Attempt) :
    ∀ (r attempt : Nat),
      setGpioGo value env attempt r = true ↔
        ∃ i, i < r ∧ (env (attempt + i)).write = true ∧
          (env (attempt + i)).readback = some value := by
  intro r
  induction r with
  | zero =>
    intro attempt
    simp [setGpioGo]
  | succ r ih =>
    intro attempt
    have shift :
        (∃ i, i < r + 1 ∧ (env (attempt + i)).write = true ∧
          (env (attempt + i)).readback = some value) ↔
        ((env attempt).write = true ∧ (env attempt).readback = some value) ∨
        (∃ j, j < r ∧ (env (attempt + 1 + j)).write = true ∧
          (env (attempt + 1 + j)).readback = some value) := by
      constructor
      · rintro ⟨i, hi, hw, hb⟩
        cases i with
        | zero => exact Or.inl ⟨by simpa using hw, by simpa using hb⟩
        | succ j =>
          refine Or.inr ⟨j, by omega, ?_, ?_⟩
          · have : attempt + 1 + j = attempt + (j + 1) := by omega
            rw [this]; exact hw
          · have : attempt + 1 + j = attempt + (j + 1) := by omega
            rw [this]; exact hb
      · rintro (⟨hw, hb⟩ | ⟨j, hj, hw, hb⟩)
        · exact ⟨0, by omega, by simpa using hw, by simpa using hb⟩
        · refine ⟨j + 1, by omega, ?_, ?_⟩
          · have : attempt + (j + 1) = attempt + 1 + j := by omega
            rw [this]; exact hw
          · have : attempt + (j + 1) = attempt + 1 + j := by omega
            rw [this]; exact hb
    rw [shift]
    simp only [setGpioGo]
    cases hw : (env attempt).write with
    | false =>
      cases r with
      | zero => simp [ih, hw]
      | succ r => simp [ih, hw]
    | true =>
      cases hb : (env attempt).readback with
      | none =>
        cases r with
        | zero => simp [ih, hw, hb]
        | succ r => simp [ih, hw, hb]
      | some actual =>
        by_cases ha : actual = value
        · subst ha
          simp [hw, hb]
        · cases r with
          | zero => simp [ih, hw, hb, ha]
          | succ r => simp [ih, hw, hb, ha]

theorem setGpioGo_congr (value : Nat) (env env' : Nat → Attempt) :
    ∀ (r attempt : Nat),
      (∀ i, attempt ≤ i → i < attempt + r → env i = env' i) →
      setGpioGo value env attempt r = setGpioGo value env' attempt r := by
  intro r
  induction r with
  | zero => intro attempt _; rfl
  | succ r ih =>
    intro attempt hagree
    have h0 : env attempt = env' attempt := hagree attempt le_rfl (by omega)
    have hrest : ∀ i, attempt + 1 ≤ i → i < attempt + 1 + r → env i = env' i :=
      fun i h1 h2 => hagree i (by omega) (by omega)
    have hr := ih (attempt + 1) hrest
    simp only [setGpioGo, h0]
    cases hbw : (env' attempt).write with
    | false => simp [hr]
    | true =>
      cases hbr : (env' attempt).readback with
      | none => simp [hr]
      | some actual => simp [hr]

theorem initFold_notmem_frame (dry_run : Bool) (reads : Nat → Option Nat)
    (setEnv : Nat → Nat → Attempt) (q : Nat) (l : List Nat) (hq : q ∉ l) :
    ∀ s : SafeguardState,
      (l.foldl (initializePin dry_run reads setEnv) s).gpio_states q =
        s.gpio_states q ∧
      (l.foldl (initializePin dry_run reads setEnv) s).gpio_timers q =
        s.gpio_timers q := by
  induction l with
  | nil => intro s; exact ⟨rfl, rfl⟩
  | cons p l ih =>
    intro s
    have hqp : q ≠ p := fun h => hq (by simp [h])
    have hql : q ∉ l := fun h => hq (by simp [h])
    have hfr := initializePin_frame dry_run reads setEnv s p q hqp
    have hrest := ih hql (initializePin dry_run reads setEnv s p)
    simp only [List.foldl] at hrest ⊢
    exact ⟨hrest.1.trans hfr.1, hrest.2.trans hfr.2⟩

theorem initFold_at (dry_run : Bool) (reads : Nat → Option Nat)
    (setEnv : Nat → Nat → Attempt) (pin : Nat) :
    ∀ (l : List Nat), l.Nodup → pin ∈ l → ∀ s : SafeguardState,
      (reads pin = none →
        (l.foldl (initializePin dry_run reads setEnv) s).gpio_states pin =
          s.gpio_states pin ∧
        (l.foldl (initializePin dry_run reads setEnv) s).gpio_timers pin =
          s.gpio_timers pin) ∧
      (reads pin ≠ none →
        (l.foldl (initializePin dry_run reads setEnv) s).gpio_states pin =
          some 1 ∧
        (l.foldl (initializePin dry_run reads setEnv) s).gpio_timers pin =
          none) := by
  intro l
  induction l with
  | nil => intro _ hmem; exact absurd hmem (by simp)
  | cons p l ih =>
    intro hnd hmem s
    rcases List.nodup_cons.mp hnd with ⟨hp, hndl⟩
    by_cases hpq : pin = p
    · subst hpq
      have hfr := initFold_notmem_frame dry_run reads setEnv pin l hp
        (initializePin dry_run reads setEnv s pin)
      simp only [List.foldl]
      constructor
      · intro hnone
        have hstep : initializePin dry_run reads setEnv s pin = s := by
          simp [initializePin, hnone]
        rw [hstep]
        exact initFold_notmem_frame dry_run reads setEnv pin l hp s
      · intro hsome
        cases h : reads pin with
        | none => exact absurd h hsome
        | some v =>
          have hstates : (initializePin dry_run reads setEnv s pin).gpio_states pin = some 1 := by
            simp [initializePin, h, upd]
          have htimers : (initializePin dry_run reads setEnv s pin).gpio_timers pin = none := by
            simp [initializePin, h, upd]
          exact ⟨hfr.1.trans hstates, hfr.2.trans htimers⟩
    · have hmem' : pin ∈ l := by
        rcases List.mem_cons.mp hmem with h | h
        · exact absurd h hpq
        · exact h
      have hfr := initializePin_frame dry_run reads setEnv s p pin hpq
      have hrest := ih hndl hmem' (initializePin dry_run reads setEnv s p)
      simp only [List.foldl]
      constructor
      · intro hnone
        exact ⟨(hrest.1 hnone).1.trans hfr.1, (hrest.1 hnone).2.trans hfr.2⟩
      · intro hsome
        exact hrest.2 hsome

theorem initialize_gpios_at (dry_run : Bool) (reads : Nat → Option Nat)
    (setEnv : Nat → Nat → Attempt) (pin : Nat) (hmem : pin ∈ MONITORED_PINS)
    (s : SafeguardState) :
    (reads pin = none →
      (initialize_gpios dry_run reads setEnv s).gpio_states pin =
        s.gpio_states pin ∧
      (initialize_gpios dry_run reads setEnv s).gpio_timers pin =
        s.gpio_timers pin) ∧
    (reads pin ≠ none →
      (initialize_gpios dry_run reads setEnv s).gpio_states pin = some 1 ∧
      (initialize_gpios dry_run reads setEnv s).gpio_timers pin = none) :=
  initFold_at dry_run reads setEnv pin MONITORED_PINS (by decide) hmem s

theorem seedPin_frame (reads : Nat → Option Nat) (s : SafeguardState)
    (pin q : Nat) (hq : q ≠ pin) :
    ({ s with gpio_states := upd s.gpio_states pin (reads pin),
              gpio_timers := upd s.gpio_timers pin none } :
        SafeguardState).gpio_states q = s.gpio_states q ∧
    ({ s with gpio_states := upd s.gpio_states pin (reads pin),
              gpio_timers := upd s.gpio_timers pin none } :
        SafeguardState).gpio_timers q = s.gpio_timers q := by
  simp [upd, hq]

theorem seedFold_at (reads : Nat → Option Nat) (pin : Nat) :
    ∀ (l : List Nat), l.Nodup → pin ∈ l → ∀ s : SafeguardState,
      (l.foldl
        (fun s pin =>
          { s with gpio_states := upd s.gpio_states pin (reads pin),
                   gpio_timers := upd s.gpio_timers pin none }) s).gpio_states
        pin = reads pin ∧
      (l.foldl
        (fun s pin =>
          { s with gpio_states := upd s.gpio_states pin (reads pin),
                   gpio_timers := upd s.gpio_timers pin none }) s).gpio_timers
        pin = none := by
  intro l
  induction l with
  | nil => intro _ hmem; exact absurd hmem (by simp)
  | cons p l ih =>
    intro hnd hmem s
    rcases List.nodup_cons.mp hnd with ⟨hp, hndl⟩
    by_cases hpq : pin = p
    · subst hpq
      have hfr : ∀ (l' : List Nat), pin ∉ l' → ∀ u : SafeguardState,
          (l'.foldl
            (fun s pin =>
              { s with gpio_states := upd s.gpio_states pin (reads pin),
                       gpio_timers := upd s.gpio_timers pin none }) u).gpio_states
            pin = u.gpio_states pin ∧
          (l'.foldl
            (fun s pin =>
              { s with gpio_states := upd s.gpio_states pin (reads pin),
                       gpio_timers := upd s.gpio_timers pin none }) u).gpio_timers
            pin = u.gpio_timers pin := by
        intro l'
        induction l' with
        | nil => intro _ u; exact ⟨rfl, rfl⟩
        | cons p' l' ih' =>
          intro hq u
          have hqp : pin ≠ p' := fun h => hq (by simp [h])
          have hql : pin ∉ l' := fun h => hq (by simp [h])
          have hfr' := seedPin_frame reads u p' pin hqp
          have hrest := ih' hql
            ({ u with gpio_states := upd u.gpio_states p' (reads p'),
                      gpio_timers := upd u.gpio_timers p' none })
          simp only [List.foldl] at hrest ⊢
          exact ⟨hrest.1.trans hfr'.1, hrest.2.trans hfr'.2⟩
      have := hfr l hp
        ({ s with gpio_states := upd s.gpio_states pin (reads pin),
                  gpio_timers := upd s.gpio_timers pin none })
      simp only [List.foldl]
      refine ⟨this.1.trans ?_, this.2.trans ?_⟩ <;> simp [upd]
    · have hmem' : pin ∈ l := by
        rcases List.mem_cons.mp hmem with h | h
        · exact absurd h hpq
        · exact h
      simp only [List.foldl]
      exact ih hndl hmem' _

theorem dryRunSeed_at (reads : Nat → Option Nat) (s : SafeguardState)
    (pin : Nat) (hmem : pin ∈ MONITORED_PINS) :
    (dryRunSeed reads s).gpio_states pin = reads pin ∧
    (dryRunSeed reads s).gpio_timers pin = none :=
  seedFold_at reads pin MONITORED_PINS (by decide) hmem s

theorem dryRunSeed_counts (reads : Nat → Option Nat) (s : SafeguardState) :
    (dryRunSeed reads s).violations_count = s.violations_count ∧
    (dryRunSeed reads s).corrections_made = s.corrections_made := by
  have : ∀ (l : List Nat) (u : SafeguardState),
      (l.foldl
        (fun s pin =>
          { s with gpio_states := upd s.gpio_states pin (reads pin),
                   gpio_timers := upd s.gpio_timers pin none }) u).violations_count =
        u.violations_count ∧
      (l.foldl
        (fun s pin =>
          { s with gpio_states := upd s.gpio_states pin (reads pin),
                   gpio_timers := upd s.gpio_timers pin none }) u).corrections_made =
        u.corrections_made := by
    intro l
    induction l with
    | nil => intro u; exact ⟨rfl, rfl⟩
    | cons p l ih => intro u; simpa [List.foldl] using ih _
  exact this MONITORED_PINS s

/-- C3: in live mode, `set_gpio(pin, value)` makes at most 3 write
attempts; it returns success if and only if some attempt's read-back
equals the target value (so an unknown read-back and a wrong-value
read-back are treated identically: neither can produce success, each
merely consumes an attempt), and the result depends on nothing beyond
the first 3 attempts. -/
theorem c3_set_gpio_retry (value : Nat) (env env' : Nat → Attempt) :
    (set_gpio false value env 3 = true ↔
      ∃ i, i < 3 ∧ (env i).write = true ∧ (env i).readback = some value) ∧
    ((∀ i, i < 3 → env i = env' i) →
      set_gpio false value env 3 = set_gpio false value env' 3) := by
  constructor
  · rw [show set_gpio false value env 3 = setGpioGo value env 0 3 from rfl]
    simpa using setGpioGo_eq_true_iff value env 3 0
  · intro hagree
    rw [show set_gpio false value env 3 = setGpioGo value env 0 3 from rfl,
      show set_gpio false value env' 3 = setGpioGo value env' 0 3 from rfl]
    exact setGpioGo_congr value env env' 3 0 (fun i _ hi => hagree i (by omega))

def c3Env : Nat → Attempt := fun i => if i = 0 then ⟨true, some 0⟩ else ⟨true, some 1⟩

def c3Env' : Nat → Attempt := fun i => if i < 3 then c3Env i else ⟨false, none⟩

/-- Witness for C3 at a concrete write environment that verifies on the
second attempt. -/
theorem c3_witness :
    set_gpio false 1 c3Env 3 = true ∧
    set_gpio false 1 c3Env 3 = set_gpio false 1 c3Env' 3 :=
  ⟨(c3_set_gpio_retry 1 c3Env c3Env').1.mpr ⟨1, by decide, by decide, by decide⟩,
   (c3_set_gpio_retry 1 c3Env c3Env').2 (fun i hi => by simp [c3Env', hi])⟩

/-- C4: for a violation handled in a tick (pin freshly read 0, tracked
level 0, timer running past its rule), a verified correction clears the
timer, sets the tracked level to 1 and increments `corrections_made`
exactly once; an unverified correction leaves timer and tracked level
unchanged and does not touch `corrections_made`. -/
theorem c4_correction_outcome (s : SafeguardState) (env : TickEnv)
    (pin : Nat) (t : ℚ) (h0 : env.reads pin = some 0)
    (hprev : s.gpio_states pin = some 0) (ht : s.gpio_timers pin = some t)
    (hel : env.now - t > SAFETY_RULES pin) :
    (set_gpio false 1 (env.setEnv pin) 3 = true →
      (checkPin false env s pin).1.gpio_timers pin = none ∧
      (checkPin false env s pin).1.gpio_states pin = some 1 ∧
      (checkPin false env s pin).1.corrections_made = s.corrections_made + 1 ∧
      (checkPin false env s pin).1.violations_count = s.violations_count + 1) ∧
    (set_gpio false 1 (env.setEnv pin) 3 = false →
      (checkPin false env s pin).1.gpio_timers pin = s.gpio_timers pin ∧
      (checkPin false env s pin).1.gpio_states pin = s.gpio_states pin ∧
      (checkPin false env s pin).1.corrections_made = s.corrections_made ∧
      (checkPin false env s pin).1.violations_count = s.violations_count + 1) := by
  rw [checkPin_violation_eq false env s pin t h0 hprev ht hel]
  constructor
  · intro hsg
    simp [hsg, upd]
  · intro hsg
    simp [hsg]

def c4State : SafeguardState :=
  { gpio_states := fun p => if p = 4 then some 0 else some 1,
    gpio_timers := fun p => if p = 4 then some 0 else none,
    violations_count := 0, corrections_made := 0 }

def c4Env : TickEnv :=
  { now := 10, reads := fun p => some (if p = 4 then 0 else 1),
    setEnv := fun _ _ => ⟨true, some 1⟩ }

/-- Witness for C4: a concrete violating tick whose correction verifies
on the first attempt. -/
theorem c4_witness :
    (checkPin false c4Env c4State 4).1.gpio_timers 4 = none ∧
    (checkPin false c4Env c4State 4).1.gpio_states 4 = some 1 ∧
    (checkPin false c4Env c4State 4).1.corrections_made = 1 ∧
    (checkPin false c4Env c4State 4).1.violations_count = 1 :=
  (c4_correction_outcome c4State c4Env 4 0 rfl rfl rfl
    (by norm_num [c4Env, SAFETY_RULES])).1 (by decide)

/-- C6: a pin whose fresh read fails this tick has both components of
its tracked state (`gpio_states[pin]` and `gpio_timers[pin]`) left
unchanged by the tick; a failed read is never treated as a transition. -/
theorem c6_unknown_read_frame (dry_run : Bool) (env : TickEnv)
    (s : SafeguardState) (pin : Nat) (h : env.reads pin = none) :
    (tickState dry_run env s).gpio_states pin = s.gpio_states pin ∧
    (tickState dry_run env s).gpio_timers pin = s.gpio_timers pin := by
  rw [tickState_eq_fold]
  exact tickFold_frame dry_run env pin h MONITORED_PINS s

def c6State : SafeguardState :=
  { gpio_states := fun p => if p = 10 then some 0 else some 1,
    gpio_timers := fun p => if p = 10 then some 3 else none,
    violations_count := 5, corrections_made := 2 }

def c6Env : TickEnv :=
  { now := 100, reads := fun p => if p = 10 then none else some 1,
    setEnv := fun _ _ => ⟨true, some 1⟩ }

/-- Witness for C6 at a concrete tick whose read of pin 10 fails. -/
theorem c6_witness :
    (tickState false c6Env c6State).gpio_states 10 = c6State.gpio_states 10 ∧
    (tickState false c6Env c6State).gpio_timers 10 = c6State.gpio_timers 10 :=
  c6_unknown_read_frame false c6Env c6State 10 rfl

/-- C7: if any monitored pin reads as failed in the startup check of
`main`, the process exits with status 1 instead of entering the run
loop; the run loop is entered exactly when every monitored pin was
readable. -/
theorem c7_startup_gate (reads : Nat → Option Nat) :
    ((∃ pin ∈ MONITORED_PINS, reads pin = none) →
      main_startup reads = MainOutcome.exit 1) ∧
    (main_startup reads = MainOutcome.enterRunLoop ↔
      ∀ pin ∈ MONITORED_PINS, reads pin ≠ none) := by
  constructor
  · rintro ⟨pin, hmem, hnone⟩
    fin_cases hmem <;>
      simp [main_startup, MONITORED_PINS, List.foldl, hnone]
  · constructor
    · intro h pin hmem hnone
      fin_cases hmem <;>
        simp_all [main_startup, MONITORED_PINS, List.foldl]
    · intro h
      have h2 := h 2 (by decide)
      have h3 := h 3 (by decide)
      have h4 := h 4 (by decide)
      have h10 := h 10 (by decide)
      simp [main_startup, MONITORED_PINS, List.foldl, h2, h3, h4, h10]

/-- Witness for C7: with pin 3 unreadable the gate exits with status 1;
with all pins readable it enters the run loop. -/
theorem c7_witness :
    main_startup (fun p => if p = 3 then none else some 1) =
      MainOutcome.exit 1 ∧
    main_startup (fun _ => some 1) = MainOutcome.enterRunLoop :=
  ⟨(c7_startup_gate (fun p => if p = 3 then none else some 1)).1
      ⟨3, by decide, by decide⟩,
   (c7_startup_gate (fun _ => some 1)).2.mpr (fun pin _ => by simp)⟩

/-- C8: in dry-run mode `set_gpio` reports success without consulting
the write environment at all (so the hardware write primitive is never
invoked and its outcomes are irrelevant), and a violating pin is still
detected, counted, and handled exactly as a live-mode verified
correction: `corrections_made` incremented, timer cleared, tracked
level forced to 1. -/
theorem c8_dry_run :
    (∀ (value : Nat) (env : Nat → Attempt) (max_retries : Nat),
      set_gpio true value env max_retries = true) ∧
    (∀ (s : SafeguardState) (env : TickEnv) (pin : Nat) (t : ℚ),
      env.reads pin = some 0 → s.gpio_states pin = some 0 →
      s.gpio_timers pin = some t → env.now - t > SAFETY_RULES pin →
      checkPin true env s pin =
        ({ s with
            violations_count := s.violations_count + 1,
            corrections_made := s.corrections_made + 1,
            gpio_states := upd s.gpio_states pin (some 1),
            gpio_timers := upd s.gpio_timers pin none }, true)) := by
  constructor
  · intro value env max_retries; rfl
  · intro s env pin t h0 hprev ht hel
    rw [checkPin_violation_eq true env s pin t h0 hprev ht hel]
    simp [set_gpio]

def c8State : SafeguardState :=
  { gpio_states := fun p => if p = 2 then some 0 else some 1,
    gpio_timers := fun p => if p = 2 then some 1 else none,
    violations_count := 0, corrections_made := 0 }

def c8Env : TickEnv :=
  { now := 30, reads := fun p => some (if p = 2 then 0 else 1),
    setEnv := fun _ _ => ⟨false, none⟩ }

/-- Witness for C8: a dry-run tick with a violating pin and a write
environment that would always fail, yet the correction is recorded as
succeeded. -/
theorem c8_witness :
    set_gpio true 1 (c8Env.setEnv 2) 3 = true ∧
    (checkPin true c8Env c8State 2).1.corrections_made = 1 ∧
    (checkPin true c8Env c8State 2).1.gpio_timers 2 = none ∧
    (checkPin true c8Env c8State 2).1.gpio_states 2 = some 1 := by
  refine ⟨c8_dry_run.1 1 (c8Env.setEnv 2) 3, ?_⟩
  rw [c8_dry_run.2 c8State c8Env 2 1 rfl rfl rfl
    (by norm_num [c8Env, SAFETY_RULES])]
  refine ⟨rfl, by simp [upd], by simp [upd]⟩

def c1State : SafeguardState :=
  { gpio_states := fun p => if p = 4 then some 0 else some 1,
    gpio_timers := fun p => if p = 4 then some 0 else none,
    violations_count := 0, corrections_made := 0 }

def c1Env : TickEnv :=
  { now := 10, reads := fun p => if p = 4 then none else some 1,
    setEnv := fun _ _ => ⟨true, some 1⟩ }

/-- Counterexample to C1 as stated: pin 4's timer is running and the
elapsed time exceeds its rule, yet because that tick's fresh read of
pin 4 fails, the tick declares no violation and attempts no correction —
so the tick does place a precondition on the fresh read. -/
theorem c1_counterexample :
    4 ∈ MONITORED_PINS ∧
    c1State.gpio_timers 4 = some 0 ∧
    c1Env.now - 0 > SAFETY_RULES 4 ∧
    (tickState false c1Env c1State).violations_count =
      c1State.violations_count ∧
    (tickState false c1Env c1State).corrections_made =
      c1State.corrections_made := by
  refine ⟨by decide, rfl, by norm_num [c1Env, SAFETY_RULES], ?_, ?_⟩ <;> rfl

/-- C1 amended: on each tick, a monitored pin whose fresh read returns 0
and whose timer is running with elapsed time beyond its rule has a
violation declared (flag true, `violations_count` incremented) and a
correction attempted (a write of level 1 whose verified outcome decides
`corrections_made`); a pin whose fresh read fails is skipped entirely. -/
theorem c1_amended (s : SafeguardState) (env : TickEnv) (pin : Nat) (t : ℚ)
    (h0 : env.reads pin = some 0) (hprev : s.gpio_states pin = some 0)
    (ht : s.gpio_timers pin = some t)
    (hel : env.now - t > SAFETY_RULES pin) :
    (checkPin false env s pin).2 = true ∧
    (checkPin false env s pin).1.violations_count = s.violations_count + 1 ∧
    (checkPin false env s pin).1.corrections_made =
      (if set_gpio false 1 (env.setEnv pin) 3 then s.corrections_made + 1
       else s.corrections_made) := by
  rw [checkPin_violation_eq false env s pin t h0 hprev ht hel]
  split_ifs <;> simp

def c1aState : SafeguardState :=
  { gpio_states := fun p => if p = 3 then some 0 else some 1,
    gpio_timers := fun p => if p = 3 then some 2 else none,
    violations_count := 0, corrections_made := 0 }

def c1aEnv : TickEnv :=
  { now := 50, reads := fun p => some (if p = 3 then 0 else 1),
    setEnv := fun _ _ => ⟨true, some 1⟩ }

/-- Witness for the amended C1 at a concrete violating tick. -/
theorem c1_amended_witness :
    (checkPin false c1aEnv c1aState 3).2 = true ∧
    (checkPin false c1aEnv c1aState 3).1.violations_count = 1 ∧
    (checkPin false c1aEnv c1aState 3).1.corrections_made =
      (if set_gpio false 1 (c1aEnv.setEnv 3) 3 then 0 + 1 else 0) :=
  c1_amended c1aState c1aEnv 3 2 rfl rfl rfl
    (by norm_num [c1aEnv, SAFETY_RULES])

def c2Reads : Nat → Option Nat := fun p => if p = 2 then some 0 else some 1

/-- Counterexample to C2 as stated: a reachable state of the dry-run
controller, right after its initial seeding pass observed pin 2 at
level 0 (so no transition to 1 has occurred since), in which the tracked
level is 0 yet the unsafe-entry timestamp is not set. -/
theorem c2_counterexample :
    ReachableDry (dryRunSeed c2Reads initialState) ∧
    2 ∈ MONITORED_PINS ∧
    (dryRunSeed c2Reads initialState).gpio_states 2 = some 0 ∧
    (dryRunSeed c2Reads initialState).gpio_timers 2 = none :=
  ⟨ReachableDry.init c2Reads, by decide, by decide, by decide⟩

/-- C2 amended: in live mode (after `initialize_gpios`, across any
sequence of ticks with valid reads) the timer is set iff the tracked
level is 0, a tick clears a running timer only by forcing the tracked
level to 1 (observed or corrected transition), and a tracked level of 1
after a tick implies the timer is cleared.  In dry-run mode a pin seeded
at level 0 violates the equivalence. -/
theorem c2_amended (s : SafeguardState) (hs : ReachableLive s) :
    (∀ pin, s.gpio_timers pin ≠ none ↔ s.gpio_states pin = some 0) ∧
    (∀ (env : TickEnv) (pin : Nat),
      s.gpio_timers pin ≠ none →
      (tickState false env s).gpio_timers pin = none →
      (tickState false env s).gpio_states pin = some 1) ∧
    (∀ env : TickEnv, ValidReads env.reads → ∀ pin : Nat,
      (tickState false env s).gpio_states pin = some 1 →
      (tickState false env s).gpio_timers pin = none) := by
  have hinv := reachableLive_inv s hs
  refine ⟨hinv, ?_, ?_⟩
  · intro env pin h1 h2
    exact tickState_clear false env s pin h1 h2
  · intro env hval pin h1
    have hinv' := tickState_inv false env s hval hinv
    by_cases h : (tickState false env s).gpio_timers pin = none
    · exact h
    · exact absurd (h1.symm.trans ((hinv' pin).mp h)) (by decide)

def c2wReads : Nat → Option Nat := fun _ => some 1

def c2wSet : Nat → Nat → Attempt := fun _ _ => ⟨true, some 1⟩

/-- Witness for the amended C2 at the state reached by a live
initialization whose reads all return 1. -/
theorem c2_amended_witness :
    ¬ (initialize_gpios false c2wReads c2wSet initialState).gpio_states 2 =
      some 0 := by
  intro hc
  have h := (c2_amended _ (ReachableLive.init c2wReads c2wSet)).1 2
  exact (h.mpr hc) (by decide)

def c9Reads : Nat → Option Nat := fun p => if p = 2 then none else some 1

def c9Set : Nat → Nat → Attempt := fun _ _ => ⟨true, some 1⟩

/-- Counterexample to C9 as stated: a pin whose startup read returns
unknown is skipped by the `continue` before the assignments, so after
`initialize_gpios` its tracked state is still absent — not
`lastLevel == 1`. -/
theorem c9_counterexample :
    2 ∈ MONITORED_PINS ∧
    c9Reads 2 = none ∧
    (initialize_gpios false c9Reads c9Set initialState).gpio_states 2 =
      none ∧
    ¬ (initialize_gpios false c9Reads c9Set initialState).gpio_states 2 =
      some 1 := by
  refine ⟨by decide, rfl, by decide, by decide⟩

/-- C9 amended: after the live-mode initializer, every monitored pin
whose startup read returned a value (0 or 1) has tracked level 1 and no
timer, regardless of the corrective write's outcome; a pin whose startup
read returned unknown is skipped, its tracked state left unchanged. -/
theorem c9_amended (reads : Nat → Option Nat) (setEnv : Nat → Nat → Attempt)
    (s : SafeguardState) (pin : Nat) (hmem : pin ∈ MONITORED_PINS) :
    (reads pin ≠ none →
      (initialize_gpios false reads setEnv s).gpio_states pin = some 1 ∧
      (initialize_gpios false reads setEnv s).gpio_timers pin = none) ∧
    (reads pin = none →
      (initialize_gpios false reads setEnv s).gpio_states pin =
        s.gpio_states pin ∧
      (initialize_gpios false reads setEnv s).gpio_timers pin =
        s.gpio_timers pin) := by
  have h := initialize_gpios_at false reads setEnv pin hmem s
  exact ⟨h.2, h.1⟩

def c9wReads : Nat → Option Nat := fun _ => some 0

def c9wSet : Nat → Nat → Attempt := fun _ _ => ⟨false, none⟩

/-- Witness for the amended C9: pin 3 reads 0 at startup and every
corrective write fails, yet the tracked state is still forced to the
safe values. -/
theorem c9_witness :
    (initialize_gpios false c9wReads c9wSet initialState).gpio_states 3 =
      some 1 ∧
    (initialize_gpios false c9wReads c9wSet initialState).gpio_timers 3 =
      none :=
  (c9_amended c9wReads c9wSet initialState 3 (by decide)).1 (by decide)

/-- C5: after a correction exhausts its retries without verified
success, the tick leaves the timer untouched, so every subsequent tick
that still reads the pin at 0 past its rule detects the violation again
(incrementing `violations_count` once per tick) while the timer keeps
its original start; the controller never gives up on an uncorrected
pin. -/
theorem c5_keeps_retrying (s : SafeguardState) (pin : Nat) (t : ℚ)
    (envs : List TickEnv) (hmem : pin ∈ MONITORED_PINS)
    (hst : s.gpio_states pin = some 0) (ht : s.gpio_timers pin = some t)
    (henv : ∀ e ∈ envs, e.reads pin = some 0 ∧
      e.now - t > SAFETY_RULES pin ∧
      set_gpio false 1 (e.setEnv pin) 3 = false)
    (hoth : ∀ e ∈ envs, ∀ q, q ≠ pin → e.reads q = none) :
    (envs.foldl (fun u e => tickState false e u) s).gpio_timers pin =
      some t ∧
    (envs.foldl (fun u e => tickState false e u) s).gpio_states pin =
      some 0 ∧
    (envs.foldl (fun u e => tickState false e u) s).violations_count =
      s.violations_count + envs.length := by
  have main : ∀ (es : List TickEnv),
      (∀ e ∈ es, e.reads pin = some 0 ∧ e.now - t > SAFETY_RULES pin ∧
        set_gpio false 1 (e.setEnv pin) 3 = false) →
      (∀ e ∈ es, ∀ q, q ≠ pin → e.reads q = none) →
      ∀ u : SafeguardState, u.gpio_states pin = some 0 →
        u.gpio_timers pin = some t →
        (es.foldl (fun u e => tickState false e u) u).gpio_timers pin =
          some t ∧
        (es.foldl (fun u e => tickState false e u) u).gpio_states pin =
          some 0 ∧
        (es.foldl (fun u e => tickState false e u) u).violations_count =
          u.violations_count + es.length := by
    intro es
    induction es with
    | nil => intro _ _ u h1 h2; simp [h1, h2]
    | cons e es ih =>
      intro he ho u h1 h2
      have hee := he e (by simp)
      have hoe := ho e (by simp)
      have hstep : tickState false e u =
          { u with violations_count := u.violations_count + 1 } := by
        rw [tick_single false e pin hmem hoe u,
          checkPin_violation_eq false e u pin t hee.1 h1 h2 hee.2.1,
          hee.2.2]
        simp
      rw [List.foldl_cons, hstep]
      have hrest := ih (fun e' h' => he e' (by simp [h']))
        (fun e' h' => ho e' (by simp [h']))
        ({ u with violations_count := u.violations_count + 1 }) h1 h2
      refine ⟨hrest.1, hrest.2.1, ?_⟩
      have c' : ((es.foldl (fun u e => tickState false e u)
          ({ u with violations_count := u.violations_count + 1 }))).violations_count =
          u.violations_count + 1 + es.length := hrest.2.2
      rw [c']
      simp only [List.length_cons]
      omega
  exact main envs henv hoth s hst ht

def c5State : SafeguardState :=
  { gpio_states := fun p => if p = 4 then some 0 else some 1,
    gpio_timers := fun p => if p = 4 then some 0 else none,
    violations_count := 0, corrections_made := 0 }

def c5Env : TickEnv :=
  { now := 10, reads := fun p => if p = 4 then some 0 else none,
    setEnv := fun _ _ => ⟨true, some 0⟩ }

/-- Witness for C5: two consecutive ticks in which pin 4 stays at 0 and
every corrective write reads back 0; each tick re-detects the violation
and the timer keeps its original start. -/
theorem c5_witness :
    ([c5Env, c5Env].foldl (fun u e => tickState false e u)
      c5State).gpio_timers 4 = some 0 ∧
    ([c5Env, c5Env].foldl (fun u e => tickState false e u)
      c5State).gpio_states 4 = some 0 ∧
    ([c5Env, c5Env].foldl (fun u e => tickState false e u)
      c5State).violations_count = c5State.violations_count + 2 :=
  c5_keeps_retrying c5State 4 0 [c5Env, c5Env] (by decide) rfl rfl
    (by
      intro e he
      simp at he
      subst he
      exact ⟨rfl, by norm_num [c5Env, SAFETY_RULES], by decide⟩)
    (by
      intro e he q hq
      simp at he
      subst he
      simp [c5Env, hq])

/-- C10: violation timing starts only on an observed transition of the
tracked level to 0; a pin that the dry-run seeding pass already found at
0 and that stays at 0 on every subsequent read never has its timer set
and never triggers a violation. -/
theorem c10_seeded_zero (reads0 : Nat → Option Nat) (pin : Nat)
    (envs : List TickEnv) (hmem : pin ∈ MONITORED_PINS)
    (h0 : reads0 pin = some 0)
    (henv : ∀ e ∈ envs, e.reads pin = some 0)
    (hoth : ∀ e ∈ envs, ∀ q, q ≠ pin → e.reads q = none) :
    (envs.foldl (fun u e => tickState true e u)
      (dryRunSeed reads0 initialState)).gpio_states pin = some 0 ∧
    (envs.foldl (fun u e => tickState true e u)
      (dryRunSeed reads0 initialState)).gpio_timers pin = none ∧
    (envs.foldl (fun u e => tickState true e u)
      (dryRunSeed reads0 initialState)).violations_count = 0 := by
  have hseed := dryRunSeed_at reads0 initialState pin hmem
  have hseedc := dryRunSeed_counts reads0 initialState
  have main : ∀ (es : List TickEnv), (∀ e ∈ es, e.reads pin = some 0) →
      (∀ e ∈ es, ∀ q, q ≠ pin → e.reads q = none) →
      ∀ u : SafeguardState, u.gpio_states pin = some 0 →
        u.gpio_timers pin = none →
        es.foldl (fun u e => tickState true e u) u = u := by
    intro es
    induction es with
    | nil => intro _ _ u _ _; rfl
    | cons e es ih =>
      intro he ho u h1 h2
      have hstep : tickState true e u = u := by
        rw [tick_single true e pin hmem (ho e (by simp)) u,
          checkPin_noop true e u pin (he e (by simp)) h1 h2]
      rw [List.foldl_cons, hstep]
      exact ih (fun e' h' => he e' (by simp [h']))
        (fun e' h' => ho e' (by simp [h'])) u h1 h2
  have hfold := main envs henv hoth (dryRunSeed reads0 initialState)
    (by rw [hseed.1, h0]) hseed.2
  rw [hfold]
  refine ⟨by rw [hseed.1, h0], hseed.2, ?_⟩
  rw [hseedc.1]
  rfl

def c10Reads : Nat → Option Nat := fun p => if p = 2 then some 0 else some 1

def c10Env : TickEnv :=
  { now := 1000, reads := fun p => if p = 2 then some 0 else none,
    setEnv := fun _ _ => ⟨true, some 1⟩ }

/-- Witness for C10: pin 2 seeded at 0 in dry-run mode and still read at
0 far beyond its 25-second rule never starts a timer and never raises a
violation. -/
theorem c10_witness :
    ([c10Env].foldl (fun u e => tickState true e u)
      (dryRunSeed c10Reads initialState)).gpio_states 2 = some 0 ∧
    ([c10Env].foldl (fun u e => tickState true e u)
      (dryRunSeed c10Reads initialState)).gpio_timers 2 = none ∧
    ([c10Env].foldl (fun u e => tickState true e u)
      (dryRunSeed c10Reads initialState)).violations_count = 0 :=
  c10_seeded_zero c10Reads 2 [c10Env] (by decide) rfl
    (by intro e he; simp at he; subst he; rfl)
    (by intro e he q hq; simp at he; subst he; simp [c10Env, hq])

end Safeguard
